import Mathlib

/-!
Shallow embedding of the marathon core (`semarathon/marathon.py`): the
`UserProfile` / `Participant` / `ScoreUpdate` data model, the `Marathon`
aggregate with its duration, start and polling operations, and the
error behaviour of each operation.  External collaborators (the Stack
Exchange API client, the network-association lookup) are passed in as
oracle functions; fallible operations return `Except`, where the error
payload carries the post-exception state when the operation mutates
state before raising.
-/

namespace SEMarathon

/-- One reputation change entry as returned by the SE API
(`se.RepChange`): `on_date` is a Unix timestamp, `reputation_change`
the signed delta (`u.json_ob.reputation_change` in the source). -/
structure RepChange where
  on_date : Int
  reputation_change : Int
deriving DecidableEq, Repr

/-- Mutable state of a `Participant.UserProfile`: the running `score`
(initialised to 0) and `_last_checked` (`none` until the first
nonempty fetch). -/
structure UserProfileState where
  score : Int
  lastChecked : Option Int
deriving DecidableEq, Repr

/-- Observable state of the `TimedStoppableThread` backing a marathon:
`stopped` is `stop_event.is_set()`, `alive` is `is_alive()`. -/
structure ThreadState where
  stopped : Bool
  alive : Bool
deriving DecidableEq, Repr

/-- A `Participant`: display name, network account id, the per-site
profile map `_users` (insertion-ordered, keys unique) and the stored
`_score` field. -/
structure Participant where
  name : String
  networkId : Int
  users : List (String × UserProfileState)
  scoreStored : Int
deriving DecidableEq, Repr

/-- The `Marathon` aggregate: tracked site keys (insertion order of the
`_sites` dict), the participant registry `participants` (name →
participant, insertion-ordered), `duration` in seconds, the optional
`start_time` / `end_time` instants and the optional `_poll_thread`. -/
structure MarathonState where
  sites : List String
  participants : List (String × Participant)
  duration : ℚ
  startTime : Option ℚ
  endTime : Option ℚ
  pollThread : Option ThreadState
deriving DecidableEq, Repr

/-- Python-dict insertion: replace the value at an existing key in
place, otherwise append the new binding at the end. -/
def insertAssoc {α : Type} (k : String) (v : α) : List (String × α) → List (String × α)
  | [] => [(k, v)]
  | (k', v') :: rest =>
    if k' = k then (k, v) :: rest else (k', v') :: insertAssoc k v rest

/-- Python-dict lookup by key. -/
def lookupAssoc {α : Type} (k : String) : List (String × α) → Option α
  | [] => none
  | (k', v') :: rest => if k' = k then some v' else lookupAssoc k rest

/-- `Participant.UserProfile.update`.  `isRunning` is
`marathon.is_running`, `startTime` is `marathon.start_time` as a Unix
timestamp, and `fetch d` is the sequence returned by
`self._site_user.reputation_detail.fetch(fromdate=d)`.  Mirrors the
source statement for statement: raise `MarathonRuntimeError` when the
marathon is not running; `last_time = self._last_checked or
marathon.start_time`; on a nonempty result assign `self._last_checked
= updates[0].on_date`; then sum `reputation_change` over the entries
whose `on_date` is greater than the value of `self._last_checked` at
that point, and return the sum.  The score field is not touched (the
source never writes `self.score` here). -/
def UserProfile.update (isRunning : Bool) (startTime : Int)
    (fetch : Int → List RepChange) (s : UserProfileState) :
    Except Unit (UserProfileState × Int) :=
  if isRunning = false then .error () else
  let lastTime : Int := s.lastChecked.getD startTime
  match fetch lastTime with
  | [] => .ok (s, 0)
  | u0 :: rest =>
    let newLastChecked := u0.on_date
    let increment :=
      (((u0 :: rest).filter fun u => decide (newLastChecked < u.on_date)).map
        RepChange.reputation_change).sum
    .ok ({ s with lastChecked := some newLastChecked }, increment)

/-- The sum the specification asks `update` to return: reputation
changes of exactly the entries strictly newer than the checkpoint in
effect before the call. -/
def specIncrement (prevCheckpoint : Int) (updates : List RepChange) : Int :=
  ((updates.filter fun u => decide (prevCheckpoint < u.on_date)).map
    RepChange.reputation_change).sum

/-- `Participant.score`: returns the stored `_score` field. -/
def Participant.score (p : Participant) : Int := p.scoreStored

/-- Sum of the scores of all of a participant's per-site profiles. -/
def Participant.profilesScoreSum (p : Participant) : Int :=
  (p.users.map fun u => u.2.score).sum

/-- `Participant.add_user_profile` with a resolved profile: keys the
profile map by site key, last write wins. -/
def Participant.addUserProfile (p : Participant) (site : String)
    (prof : UserProfileState) : Participant :=
  { p with users := insertAssoc site prof p.users }

/-- The profile-fetching loop of `Marathon.add_participant`:
`for site in self.sites: participant.add_user_profile(site)`.
`fetchProfile site = none` models the lookup for `site` raising
(`UserNotFoundError` etc.); the error payload is the participant as
mutated so far, since the exception aborts the loop after some
profiles may already have been attached. -/
def Participant.addProfilesForSites (fetchProfile : String → Option UserProfileState)
    (p : Participant) : List String → Except Participant Participant
  | [] => .ok p
  | site :: rest =>
    match fetchProfile site with
    | none => .error p
    | some prof =>
      Participant.addProfilesForSites fetchProfile (p.addUserProfile site prof) rest

/-- `Marathon.add_participant`: the source first executes
`self.participants[participant.name] = participant` and only then runs
the profile-fetching loop; the map entry aliases the participant
object, so on failure the (partially profiled) participant is already
in the map.  The error payload is the marathon state after the
exception propagates. -/
def Marathon.add_participant (fetchProfile : String → Option UserProfileState)
    (m : MarathonState) (p : Participant) : Except MarathonState MarathonState :=
  match Participant.addProfilesForSites fetchProfile p m.sites with
  | .ok p' => .ok { m with participants := insertAssoc p.name p' m.participants }
  | .error p' => .error { m with participants := insertAssoc p.name p' m.participants }

/-- `ScoreUpdate.fetch_updates`: for each site record the increment
returned by that site's `update()` call, keeping only nonzero
increments (`if increment:`).  `delta site` is the value returned by
`self.participant.user_profiles[site].update()`. -/
def ScoreUpdate.fetchUpdates (delta : String → Int) : List String → List (String × Int)
  | [] => []
  | site :: rest =>
    if delta site = 0 then ScoreUpdate.fetchUpdates delta rest
    else (site, delta site) :: ScoreUpdate.fetchUpdates delta rest

/-- `Marathon.poll`: for each registered participant build a
`ScoreUpdate` over the tracked sites and yield it only if it is truthy
(`bool(self.per_site)`, i.e. the per-site map is nonempty).  `delta
name site` is the increment reported by that participant's profile on
that site. -/
def Marathon.poll (delta : String → String → Int) (m : MarathonState) :
    List (String × List (String × Int)) :=
  m.participants.filterMap fun pr =>
    let u := ScoreUpdate.fetchUpdates (delta pr.1) m.sites
    if u.isEmpty then none else some (pr.1, u)

/-- `datetime.timedelta(minutes=x)` in seconds. -/
def timedeltaMinutes (x : ℚ) : ℚ := 60 * x

/-- `datetime.timedelta(hours=x)` in seconds. -/
def timedeltaHours (x : ℚ) : ℚ := 3600 * x

/-- `Marathon.refresh_interval`: the step-function cascade of the
source property. -/
def Marathon.refresh_interval (m : MarathonState) : ℚ :=
  if timedeltaHours 2 ≤ m.duration then timedeltaMinutes 30
  else if timedeltaMinutes 45 ≤ m.duration then timedeltaMinutes 15
  else if timedeltaMinutes 15 ≤ m.duration then timedeltaMinutes 5
  else if timedeltaMinutes 10 ≤ m.duration then timedeltaMinutes 2
  else timedeltaMinutes 1

/-- `Marathon._check_all_participants_have_users` as a Bool: true iff
no participant is missing a profile for a tracked site (the source
raises `SEMarathonError` on the first missing one). -/
def Marathon.checkAllParticipantsHaveUsers (m : MarathonState) : Bool :=
  m.participants.all fun pr => m.sites.all fun site =>
    (lookupAssoc site pr.2.users).isSome

/-- `Marathon.start`: first run the participant/profile check (raising
`SEMarathonError` leaves the state untouched — the error payload is the
unchanged state); then set `start_time = now`, `end_time = start_time +
duration` and spawn the poll thread (alive, not stopped). -/
def Marathon.start (m : MarathonState) (now : ℚ) : Except MarathonState MarathonState :=
  if Marathon.checkAllParticipantsHaveUsers m then
    .ok { m with startTime := some now, endTime := some (now + m.duration),
                 pollThread := some { stopped := false, alive := true } }
  else .error m

/-- `Marathon.is_running`: `False` with no thread; raise
`MarathonRuntimeError` when the thread died (`not stopped and not
alive`); otherwise return `is_alive()`. -/
def Marathon.is_running (m : MarathonState) : Except Unit Bool :=
  match m.pollThread with
  | none => .ok false
  | some t =>
    if t.stopped = false ∧ t.alive = false then .error () else .ok t.alive

/-- Argument to the `duration` setter: either a plain number
(`int`/`float`) or an already-built `datetime.timedelta` (held as its
total seconds). -/
inductive DurationValue where
  | num (value : ℚ)
  | timedelta (seconds : ℚ)
deriving DecidableEq, Repr

/-- The seconds the setter ends up with: a plain number goes through
`datetime.timedelta(hours=value)`, a timedelta is taken as given. -/
def DurationValue.toSeconds : DurationValue → ℚ
  | .num v => timedeltaHours v
  | .timedelta s => s

/-- The `Marathon.duration` setter: convert a plain number via
`timedelta(hours=value)`, raise `ValueError` before assigning when
`value.total_seconds() < 0` (error payload: the unchanged state),
otherwise store the converted value. -/
def Marathon.setDuration (m : MarathonState) (v : DurationValue) :
    Except MarathonState MarathonState :=
  let seconds := v.toSeconds
  if seconds < 0 then .error m
  else .ok { m with duration := seconds }

/-- `DEFAULT_SITES_KEYS = ("stackoverflow", "math", "tex")`. -/
def DEFAULT_SITES_KEYS : List String := ["stackoverflow", "math", "tex"]

/-- Key list of the dict comprehension `{key: get_api(key) for key in
sites}`: duplicates collapse onto the first occurrence. -/
def dictOfKeys (keys : List String) : List String :=
  keys.foldl (fun acc k => if k ∈ acc then acc else acc ++ [k]) []

/-- `Marathon.__init__(*sites, duration=4)`.  `validSite key` models
`get_api(key)` succeeding (it raises `SiteNotFoundError` on a key
outside the static registry).  An empty argument tuple falls back to
`DEFAULT_SITES_KEYS` (`sites = sites or DEFAULT_SITES_KEYS`); then the
sites dict is built, and `self.duration = duration` runs the setter,
whose `ValueError` propagates out of the constructor. -/
def Marathon.init (validSite : String → Bool) (siteArgs : List String)
    (duration : DurationValue) : Except Unit MarathonState :=
  let keys := if siteArgs.isEmpty then DEFAULT_SITES_KEYS else siteArgs
  if keys.all validSite then
    let m0 : MarathonState :=
      { sites := dictOfKeys keys, participants := [], duration := 0,
        startTime := none, endTime := none, pollThread := none }
    match Marathon.setDuration m0 duration with
    | .ok m => .ok m
    | .error _ => .error ()
  else .error ()

/-- A fresh, idle marathon with no sites and no participants, used as a
base for concrete instances. -/
def emptyMarathon : MarathonState :=
  { sites := [], participants := [], duration := 0,
    startTime := none, endTime := none, pollThread := none }

/-- A marathon tracking a single site. -/
def oneSiteMarathon : MarathonState :=
  { emptyMarathon with sites := ["stackoverflow"] }

/-- A participant with no profiles yet. -/
def alice : Participant :=
  { name := "alice", networkId := 1, users := [], scoreStored := 0 }

/-- A participant with no profiles yet (poll test subject). -/
def bob : Participant :=
  { name := "bob", networkId := 3, users := [], scoreStored := 0 }

/-- A one-site marathon with `bob` registered. -/
def pollMarathon : MarathonState :=
  { emptyMarathon with sites := ["stackoverflow"], participants := [("bob", bob)] }

/-- A per-participant, per-site delta oracle that always reports +1. -/
def unitDelta : String → String → Int := fun _ _ => 1

/-- A participant holding a profile for the site "stackoverflow". -/
def carol : Participant :=
  { name := "carol", networkId := 2,
    users := [("stackoverflow", { score := 0, lastChecked := none })],
    scoreStored := 0 }

/-- A one-site marathon whose single participant has a profile for the
tracked site, ready to start. -/
def readyMarathon : MarathonState :=
  { emptyMarathon with
    sites := ["stackoverflow"],
    participants := [("carol", carol)],
    duration := 60 }

/-!
Theorems settling the claims, with shared helper lemmas.
-/

/-- Claim C1, evaluated at a failing input: with the marathon running,
previous checkpoint 50 and a (newest-first) fetch result consisting of
the single entry `(on_date 100, +10)`, the code advances the
checkpoint to 100 but returns 0, because it sums entries strictly
newer than the checkpoint it has just advanced; the sum the claim
requires — over entries strictly newer than the previous checkpoint
50, the newest entry included — is 10. -/
theorem C1_update_sums_against_new_checkpoint :
    UserProfile.update true 0 (fun _ => [{ on_date := 100, reputation_change := 10 }])
        { score := 0, lastChecked := some 50 } =
      .ok ({ score := 0, lastChecked := some 100 }, 0) ∧
    specIncrement 50 [{ on_date := 100, reputation_change := 10 }] = 10 :=
  ⟨rfl, rfl⟩

/-- Claim C2, evaluated at a failing input: a successful `update`
returning the nonzero delta 10 leaves the profile's `score` field at
0 — the code never adds the returned increment to the running score,
so neither the profile score nor the participant score ever moves. -/
theorem C2_update_leaves_score_unchanged :
    UserProfile.update true 0
        (fun _ => [{ on_date := 50, reputation_change := 5 },
                   { on_date := 100, reputation_change := 10 }])
        { score := 0, lastChecked := some 0 } =
      .ok ({ score := 0, lastChecked := some 50 }, 10) :=
  rfl

/-- Claim C5: `refresh_interval` is exactly the claimed step function
of the duration. -/
theorem C5_refresh_interval_step (m : MarathonState) :
    (timedeltaHours 2 ≤ m.duration →
      Marathon.refresh_interval m = timedeltaMinutes 30) ∧
    (timedeltaMinutes 45 ≤ m.duration ∧ m.duration < timedeltaHours 2 →
      Marathon.refresh_interval m = timedeltaMinutes 15) ∧
    (timedeltaMinutes 15 ≤ m.duration ∧ m.duration < timedeltaMinutes 45 →
      Marathon.refresh_interval m = timedeltaMinutes 5) ∧
    (timedeltaMinutes 10 ≤ m.duration ∧ m.duration < timedeltaMinutes 15 →
      Marathon.refresh_interval m = timedeltaMinutes 2) ∧
    (m.duration < timedeltaMinutes 10 →
      Marathon.refresh_interval m = timedeltaMinutes 1) := by
  unfold Marathon.refresh_interval timedeltaMinutes timedeltaHours
  refine ⟨fun h1 => ?_, fun h2 => ?_, fun h3 => ?_, fun h4 => ?_, fun h5 => ?_⟩
  · rw [if_pos h1]
  · rw [if_neg (not_le.mpr h2.2), if_pos h2.1]
  · rw [if_neg (not_le.mpr (by linarith [h3.2])), if_neg (not_le.mpr h3.2),
      if_pos h3.1]
  · rw [if_neg (not_le.mpr (by linarith [h4.2])),
      if_neg (not_le.mpr (by linarith [h4.2])), if_neg (not_le.mpr h4.2),
      if_pos h4.1]
  · rw [if_neg (not_le.mpr (by linarith)), if_neg (not_le.mpr (by linarith)),
      if_neg (not_le.mpr (by linarith)), if_neg (not_le.mpr (by linarith))]

/-- Witness for C5 at a two-hour duration. -/
theorem C5_refresh_interval_step_witness :
    timedeltaHours 2 ≤ ({ emptyMarathon with duration := 7200 } : MarathonState).duration ∧
    Marathon.refresh_interval { emptyMarathon with duration := 7200 } =
      timedeltaMinutes 30 :=
  ⟨by norm_num [timedeltaHours, emptyMarathon],
   (C5_refresh_interval_step { emptyMarathon with duration := 7200 }).1
     (by norm_num [timedeltaHours, emptyMarathon])⟩

/-- Claim C7: assigning a nonnegative duration value stores its
time-span conversion (everything else untouched); a negative one
raises `ValueError` leaving the state unchanged. -/
theorem C7_duration_setter (m : MarathonState) (v : DurationValue) :
    (0 ≤ v.toSeconds →
      Marathon.setDuration m v = .ok { m with duration := v.toSeconds }) ∧
    (v.toSeconds < 0 → Marathon.setDuration m v = .error m) := by
  unfold Marathon.setDuration
  exact ⟨fun h => by rw [if_neg (not_lt.mpr h)], fun h => by rw [if_pos h]⟩

/-- Witness for C7: a 60-second timedelta is stored as given. -/
theorem C7_duration_setter_witness :
    0 ≤ (DurationValue.timedelta 60).toSeconds ∧
    Marathon.setDuration emptyMarathon (.timedelta 60) =
      .ok { emptyMarathon with duration := 60 } :=
  ⟨by norm_num [DurationValue.toSeconds],
   (C7_duration_setter emptyMarathon (.timedelta 60)).1
     (by norm_num [DurationValue.toSeconds])⟩

/-- Claim C8: `is_running` returns true exactly when the poll thread
exists and is still alive, and raises `MarathonRuntimeError` exactly
when the thread exists but died without its stop event being set. -/
theorem C8_is_running_characterisation (m : MarathonState) :
    (Marathon.is_running m = .ok true ↔
      ∃ t, m.pollThread = some t ∧ t.alive = true) ∧
    (Marathon.is_running m = .error () ↔
      ∃ t, m.pollThread = some t ∧ t.stopped = false ∧ t.alive = false) := by
  obtain ⟨sites, parts, dur, st, et, pt⟩ := m
  cases pt with
  | none => simp [Marathon.is_running]
  | some t =>
    obtain ⟨stp, al⟩ := t
    cases stp <;> cases al <;>
      simp [Marathon.is_running]

/-- Witness for C8: an existing, alive, non-stopped thread reads as
running. -/
theorem C8_is_running_characterisation_witness :
    Marathon.is_running
      { emptyMarathon with pollThread := some { stopped := false, alive := true } } =
      .ok true :=
  (C8_is_running_characterisation
      { emptyMarathon with pollThread := some { stopped := false, alive := true } }).1.mpr
    ⟨{ stopped := false, alive := true }, rfl, rfl⟩

/-- Claim C3 counterexample: with one tracked site whose profile
lookup fails, `add_participant` raises — but the participants map now
contains the half-registered participant, because the source inserts
into the map before fetching any profile.  So the map is not
unchanged. -/
theorem C3_counterexample :
    Marathon.add_participant (fun _ => none) oneSiteMarathon alice =
      .error { oneSiteMarathon with participants := [("alice", alice)] } ∧
    ({ oneSiteMarathon with participants := [("alice", alice)] } : MarathonState).participants ≠
      oneSiteMarathon.participants :=
  ⟨rfl, by decide⟩

/-- Claim C3 amended: when `add_participant` fails, the participants
map is the old map with the (partially profiled) participant inserted
under its name — the insertion precedes profile fetching — and every
other marathon field is unchanged. -/
theorem C3_amended_failed_add_leaves_participant
    (fetchProfile : String → Option UserProfileState)
    (m m' : MarathonState) (p : Participant)
    (h : Marathon.add_participant fetchProfile m p = .error m') :
    ∃ p', m'.participants = insertAssoc p.name p' m.participants ∧
      m'.sites = m.sites ∧ m'.duration = m.duration ∧
      m'.startTime = m.startTime ∧ m'.endTime = m.endTime ∧
      m'.pollThread = m.pollThread := by
  unfold Marathon.add_participant at h
  cases hres : Participant.addProfilesForSites fetchProfile p m.sites with
  | ok p' => rw [hres] at h; exact absurd h (by simp)
  | error p' =>
    rw [hres] at h
    injection h with h2
    subst h2
    exact ⟨p', rfl, rfl, rfl, rfl, rfl, rfl⟩

/-- Witness for the amended C3 at the concrete failing registration. -/
theorem C3_amended_witness :
    ∃ p', ({ oneSiteMarathon with participants := [("alice", alice)] } :
        MarathonState).participants =
      insertAssoc alice.name p' oneSiteMarathon.participants ∧
      ({ oneSiteMarathon with participants := [("alice", alice)] } :
          MarathonState).sites = oneSiteMarathon.sites ∧
      ({ oneSiteMarathon with participants := [("alice", alice)] } :
          MarathonState).duration = oneSiteMarathon.duration ∧
      ({ oneSiteMarathon with participants := [("alice", alice)] } :
          MarathonState).startTime = oneSiteMarathon.startTime ∧
      ({ oneSiteMarathon with participants := [("alice", alice)] } :
          MarathonState).endTime = oneSiteMarathon.endTime ∧
      ({ oneSiteMarathon with participants := [("alice", alice)] } :
          MarathonState).pollThread = oneSiteMarathon.pollThread :=
  C3_amended_failed_add_leaves_participant (fun _ => none) oneSiteMarathon
    { oneSiteMarathon with participants := [("alice", alice)] } alice rfl

/-- `fetch_updates` builds the same list as filtering the tracked
sites down to those with a nonzero increment. -/
theorem fetchUpdates_eq_filterMap (delta : String → Int) (sites : List String) :
    ScoreUpdate.fetchUpdates delta sites =
      sites.filterMap fun s => if delta s = 0 then none else some (s, delta s) := by
  induction sites with
  | nil => rfl
  | cons x xs ih =>
    by_cases hx : delta x = 0 <;>
      simp [ScoreUpdate.fetchUpdates, List.filterMap_cons, hx, ih]

/-- Membership in a `fetch_updates` result characterised. -/
theorem mem_fetchUpdates (delta : String → Int) (sites : List String)
    (s : String) (d : Int) :
    (s, d) ∈ ScoreUpdate.fetchUpdates delta sites ↔
      s ∈ sites ∧ delta s = d ∧ d ≠ 0 := by
  rw [fetchUpdates_eq_filterMap]
  simp only [List.mem_filterMap]
  constructor
  · rintro ⟨a, ha, hsome⟩
    by_cases h0 : delta a = 0
    · simp [h0] at hsome
    · simp only [h0, if_false, Option.some.injEq, Prod.mk.injEq] at hsome
      obtain ⟨rfl, rfl⟩ := hsome
      exact ⟨ha, rfl, h0⟩
  · rintro ⟨hs, rfl, hd⟩
    exact ⟨s, hs, by simp [hd]⟩

/-- A `fetch_updates` result is empty iff every tracked site reported
a zero increment. -/
theorem fetchUpdates_eq_nil_iff (delta : String → Int) (sites : List String) :
    ScoreUpdate.fetchUpdates delta sites = [] ↔ ∀ s ∈ sites, delta s = 0 := by
  induction sites with
  | nil => simp [ScoreUpdate.fetchUpdates]
  | cons x xs ih =>
    by_cases hx : delta x = 0 <;>
      simp [ScoreUpdate.fetchUpdates, hx, ih]

/-- Membership in a `poll` result characterised. -/
theorem mem_poll (delta : String → String → Int) (m : MarathonState)
    (n : String) (u : List (String × Int)) :
    (n, u) ∈ Marathon.poll delta m ↔
      (∃ pr ∈ m.participants, pr.1 = n) ∧
      u = ScoreUpdate.fetchUpdates (delta n) m.sites ∧ u ≠ [] := by
  unfold Marathon.poll
  simp only [List.mem_filterMap]
  constructor
  · rintro ⟨pr, hpr, hsome⟩
    by_cases he : (ScoreUpdate.fetchUpdates (delta pr.1) m.sites).isEmpty
    · simp [he] at hsome
    · simp only [he, if_false, Option.some.injEq, Prod.mk.injEq] at hsome
      obtain ⟨rfl, rfl⟩ := hsome
      refine ⟨⟨pr, hpr, rfl⟩, rfl, ?_⟩
      simpa [List.isEmpty_iff] using he
  · rintro ⟨⟨pr, hpr, rfl⟩, rfl, hne⟩
    refine ⟨pr, hpr, ?_⟩
    simp [List.isEmpty_iff, hne]

/-- Claim C4: one `poll` call yields an update for a participant iff
at least one tracked site reported a nonzero delta for them; an update
with an empty per-site map is suppressed; and a yielded per-site map
holds exactly the tracked sites with nonzero delta. -/
theorem C4_poll_yields_iff_nonzero_delta (delta : String → String → Int)
    (m : MarathonState) (pr : String × Participant)
    (hpr : pr ∈ m.participants) :
    ((∃ u, (pr.1, u) ∈ Marathon.poll delta m) ↔
      ∃ s ∈ m.sites, delta pr.1 s ≠ 0) ∧
    ∀ u, (pr.1, u) ∈ Marathon.poll delta m →
      u ≠ [] ∧ ∀ s d, (s, d) ∈ u ↔ s ∈ m.sites ∧ delta pr.1 s = d ∧ d ≠ 0 := by
  constructor
  · constructor
    · rintro ⟨u, hu⟩
      obtain ⟨-, rfl, hne⟩ := (mem_poll delta m pr.1 u).mp hu
      by_contra hno
      push_neg at hno
      exact hne ((fetchUpdates_eq_nil_iff _ _).mpr hno)
    · rintro ⟨s, hs, hd⟩
      refine ⟨ScoreUpdate.fetchUpdates (delta pr.1) m.sites,
        (mem_poll delta m pr.1 _).mpr ⟨⟨pr, hpr, rfl⟩, rfl, ?_⟩⟩
      intro hnil
      exact hd ((fetchUpdates_eq_nil_iff _ _).mp hnil s hs)
  · intro u hu
    obtain ⟨-, rfl, hne⟩ := (mem_poll delta m pr.1 u).mp hu
    exact ⟨hne, fun s d => mem_fetchUpdates _ _ s d⟩

/-- Witness for C4: with one registered participant and one tracked
site always reporting +1, poll yields exactly that site's delta. -/
theorem C4_poll_witness :
    ("bob", bob) ∈ pollMarathon.participants ∧
    (((∃ u, ("bob", u) ∈ Marathon.poll unitDelta pollMarathon) ↔
        ∃ s ∈ pollMarathon.sites, unitDelta "bob" s ≠ 0) ∧
      ∀ u, ("bob", u) ∈ Marathon.poll unitDelta pollMarathon →
        u ≠ [] ∧ ∀ s d, (s, d) ∈ u ↔
          s ∈ pollMarathon.sites ∧ unitDelta "bob" s = d ∧ d ≠ 0) :=
  ⟨by simp [pollMarathon, emptyMarathon],
   C4_poll_yields_iff_nonzero_delta unitDelta pollMarathon ("bob", bob)
     (by simp [pollMarathon, emptyMarathon])⟩

/-- Claim C6: `start` fails with `SEMarathonError` and leaves the
state unchanged exactly when some participant lacks a profile for a
tracked site; otherwise it sets `start_time` to now and `end_time` to
exactly `start_time + duration` and spawns the poll thread. -/
theorem C6_start_checks_profiles (m : MarathonState) (now : ℚ) :
    ((∃ pr ∈ m.participants, ∃ s ∈ m.sites, lookupAssoc s pr.2.users = none) →
      Marathon.start m now = .error m) ∧
    ((∀ pr ∈ m.participants, ∀ s ∈ m.sites, (lookupAssoc s pr.2.users).isSome) →
      Marathon.start m now =
        .ok { m with
              startTime := some now,
              endTime := some (now + m.duration),
              pollThread := some { stopped := false, alive := true } }) := by
  constructor
  · rintro ⟨pr, hpr, s, hs, hnone⟩
    have hfalse : ¬ (Marathon.checkAllParticipantsHaveUsers m = true) := by
      unfold Marathon.checkAllParticipantsHaveUsers
      simp only [List.all_eq_true]
      push_neg
      exact ⟨pr, hpr, s, hs, by simp [hnone]⟩
    unfold Marathon.start
    rw [if_neg hfalse]
  · intro hall
    have htrue : Marathon.checkAllParticipantsHaveUsers m = true := by
      unfold Marathon.checkAllParticipantsHaveUsers
      simp only [List.all_eq_true]
      exact fun pr hpr s hs => hall pr hpr s hs
    unfold Marathon.start
    rw [if_pos htrue]

/-- Witness for C6 at a ready one-site, one-participant marathon. -/
theorem C6_start_witness :
    (∀ pr ∈ readyMarathon.participants, ∀ s ∈ readyMarathon.sites,
      (lookupAssoc s pr.2.users).isSome) ∧
    Marathon.start readyMarathon 1000 =
      .ok { readyMarathon with
            startTime := some 1000,
            endTime := some (1000 + readyMarathon.duration),
            pollThread := some { stopped := false, alive := true } } :=
  ⟨by decide, (C6_start_checks_profiles readyMarathon 1000).2 (by decide)⟩

/-- Claim C9: a plain number is interpreted as a number of hours by
the duration setter (so the constructor's default of 4 yields a 4-hour
marathon), while a timedelta value is stored as given. -/
theorem C9_plain_number_is_hours (m : MarathonState) (hq s : ℚ)
    (sites : List String) (validSite : String → Bool) :
    (0 ≤ hq → Marathon.setDuration m (.num hq) =
      .ok { m with duration := timedeltaHours hq }) ∧
    ((if sites.isEmpty then DEFAULT_SITES_KEYS else sites).all validSite = true →
      ∃ m', Marathon.init validSite sites (.num 4) = .ok m' ∧
        m'.duration = timedeltaHours 4) ∧
    (0 ≤ s → Marathon.setDuration m (.timedelta s) =
      .ok { m with duration := s }) := by
  refine ⟨fun h => ?_, fun hall => ?_, fun h => ?_⟩
  · simp only [Marathon.setDuration, DurationValue.toSeconds, timedeltaHours]
    rw [if_neg (not_lt.mpr (mul_nonneg (by norm_num) h))]
  · simp only [Marathon.init]
    rw [if_pos hall]
    simp only [Marathon.setDuration, DurationValue.toSeconds, timedeltaHours]
    norm_num
  · simp only [Marathon.setDuration, DurationValue.toSeconds]
    rw [if_neg (not_lt.mpr h)]

/-- Witness for C9: setter and constructor at concrete values. -/
theorem C9_plain_number_is_hours_witness :
    (0 ≤ (4 : ℚ) ∧
      Marathon.setDuration emptyMarathon (.num 4) =
        .ok { emptyMarathon with duration := timedeltaHours 4 }) ∧
    (∃ m', Marathon.init (fun _ => true) [] (.num 4) = .ok m' ∧
      m'.duration = timedeltaHours 4) ∧
    (0 ≤ (90 : ℚ) ∧
      Marathon.setDuration emptyMarathon (.timedelta 90) =
        .ok { emptyMarathon with duration := 90 }) :=
  ⟨⟨by norm_num,
    (C9_plain_number_is_hours emptyMarathon 4 90 [] (fun _ => true)).1 (by norm_num)⟩,
   (C9_plain_number_is_hours emptyMarathon 4 90 [] (fun _ => true)).2.1 (by decide),
   ⟨by norm_num,
    (C9_plain_number_is_hours emptyMarathon 4 90 [] (fun _ => true)).2.2 (by norm_num)⟩⟩

/-- Membership survives the key-deduplicating fold of the sites dict
comprehension, generalised over the accumulator. -/
theorem mem_dictOfKeys_foldl (l : List String) (acc : List String) (k : String) :
    k ∈ l.foldl (fun acc' k' => if k' ∈ acc' then acc' else acc' ++ [k']) acc ↔
      k ∈ acc ∨ k ∈ l := by
  induction l generalizing acc with
  | nil => simp
  | cons x xs ih =>
    simp only [List.foldl_cons]
    rw [ih]
    by_cases hx : x ∈ acc
    · rw [if_pos hx]
      simp only [List.mem_cons]
      constructor
      · rintro (h | h)
        · exact Or.inl h
        · exact Or.inr (Or.inr h)
      · rintro (h | rfl | h)
        · exact Or.inl h
        · exact Or.inl hx
        · exact Or.inr h
    · rw [if_neg hx]
      simp only [List.mem_append, List.mem_singleton, List.mem_cons]
      tauto

/-- The sites dict holds exactly the requested keys. -/
theorem mem_dictOfKeys (l : List String) (k : String) :
    k ∈ dictOfKeys l ↔ k ∈ l := by
  unfold dictOfKeys
  rw [mem_dictOfKeys_foldl]
  simp

/-- Claim C10: constructing with an empty site list falls back to the
three default site keys (so the sites map is nonempty); a non-empty
list is used as given. -/
theorem C10_default_sites (validSite : String → Bool) (l : List String)
    (d : DurationValue) (hd : 0 ≤ d.toSeconds) :
    (DEFAULT_SITES_KEYS.all validSite = true →
      ∃ m, Marathon.init validSite [] d = .ok m ∧
        m.sites = DEFAULT_SITES_KEYS ∧ m.sites ≠ []) ∧
    (l ≠ [] → l.all validSite = true →
      ∃ m, Marathon.init validSite l d = .ok m ∧ ∀ k, k ∈ m.sites ↔ k ∈ l) := by
  have hsd : ∀ m0 : MarathonState,
      Marathon.setDuration m0 d = .ok { m0 with duration := d.toSeconds } := by
    intro m0
    simp only [Marathon.setDuration]
    rw [if_neg (not_lt.mpr hd)]
  constructor
  · intro hall
    simp only [Marathon.init, List.isEmpty_nil, if_true]
    rw [if_pos (by simpa using hall), hsd]
    refine ⟨_, rfl, ?_, ?_⟩
    · show dictOfKeys DEFAULT_SITES_KEYS = DEFAULT_SITES_KEYS
      decide
    · show dictOfKeys DEFAULT_SITES_KEYS ≠ []
      decide
  · intro hne hall
    have hie : l.isEmpty = false := by
      cases l with
      | nil => exact absurd rfl hne
      | cons a as => rfl
    simp only [Marathon.init, hie, Bool.false_eq_true, if_false]
    rw [if_pos hall, hsd]
    exact ⟨_, rfl, fun k => by simpa using mem_dictOfKeys l k⟩

/-- Witness for C10: defaulted and explicit site lists. -/
theorem C10_default_sites_witness :
    0 ≤ (DurationValue.timedelta 0).toSeconds ∧
    (∃ m, Marathon.init (fun _ => true) [] (.timedelta 0) = .ok m ∧
      m.sites = DEFAULT_SITES_KEYS ∧ m.sites ≠ []) ∧
    (∃ m, Marathon.init (fun _ => true) ["math"] (.timedelta 0) = .ok m ∧
      ∀ k, k ∈ m.sites ↔ k ∈ ["math"]) :=
  ⟨by norm_num [DurationValue.toSeconds],
   (C10_default_sites (fun _ => true) ["math"] (.timedelta 0)
      (by norm_num [DurationValue.toSeconds])).1 (by decide),
   (C10_default_sites (fun _ => true) ["math"] (.timedelta 0)
      (by norm_num [DurationValue.toSeconds])).2 (by decide) (by decide)⟩

end SEMarathon
